import Mathlib

/-
Verification of the `rusfun` wasm boundary (src/wasm.rs) against its
natural-language specification.

The scalar type `f64` is embedded as `ℚ`: every claim checked here is
structural (dispatch, lengths, field plumbing, masking, validation), so no
property depends on floating-point rounding, and `ℚ` keeps every definition
executable and every equality decidable.

The numeric bodies of the registered model functions (`standard::linear`,
`size_distribution::gaussian`, `sphere::formfactor`, ...) and the
Levenberg-Marquardt core (`curve_fit::Minimizer`, `func1d::Func1D`,
`utils::array1_to_vec`) are not part of the staged sources; where a claim
needs them they are modelled from the spec, as marked in each doc comment.
The spec itself treats the model-function formulas as black boxes, so their
pointwise kernels are abstracted as an explicit parameter `K`, and the
linear-solve / covariance numerics of the minimizer as parameters `S` and
`E`; theorems quantify over these, so they hold whatever the black-box
numerics do.
-/

namespace Rusfun

/-- The model functions `get_function` (src/wasm.rs lines 20-34) can return.
Each constructor stands for one Rust function pointer: `standard::linear`,
`standard::parabola`, `standard::sqrt`, `standard::cos`, `standard::sin`,
`standard::tan`, `standard::exp`, `size_distribution::gaussian`,
`sphere::formfactor` (constructor `sphere_formfactor`), `cube::formfactor`
(constructor `cube_formfactor`) and the fallback `standard::zero`. -/
inductive ModelFn where
  | linear
  | parabola
  | sqrt
  | cos
  | sin
  | tan
  | exp
  | gaussian
  | sphere_formfactor
  | cube_formfactor
  | zero
  deriving DecidableEq

/-- Modelled from the spec: the bodies of the model functions live in modules
(`standard`, `size_distribution`, `sas`) that are not under the staged
sources.  Per the spec they are pure elementwise mappings returning one value
per domain point, and the formulas themselves are declared out of scope
("black-box mappings from parameters+domain to values"), so the pointwise
kernel of every registered function is abstracted as the parameter `K`.
The fallback `standard::zero` is fixed by the spec: an unrecognized name
"maps to a defined constant-zero function", returning zeros of the domain's
length. -/
def ModelFn.apply (K : ModelFn → List ℚ → ℚ → ℚ) :
    ModelFn → List ℚ → List ℚ → List ℚ
  | ModelFn.zero, _, x => x.map (fun _ => 0)
  | f, p, x => x.map (K f p)

/-- Translates a string to an implemented function in rusfun
(src/wasm.rs `get_function`, lines 20-34), one match arm per registered
name, with `standard::zero` as the default arm. -/
def get_function (function_name : String) : ModelFn :=
  match function_name with
  | "linear" => ModelFn.linear
  | "parabola" => ModelFn.parabola
  | "sqrt" => ModelFn.sqrt
  | "cos" => ModelFn.cos
  | "sin" => ModelFn.sin
  | "tan" => ModelFn.tan
  | "exp" => ModelFn.exp
  | "gaussian" => ModelFn.gaussian
  | "sas_sphere" => ModelFn.sphere_formfactor
  | "sas_cube" => ModelFn.cube_formfactor
  | _ => ModelFn.zero

/-- The ten registered model names of the match in `get_function`. -/
def registered_names : List String :=
  ["linear", "parabola", "sqrt", "cos", "sin", "tan", "exp",
   "gaussian", "sas_sphere", "sas_cube"]

/-- Modelled from the spec: `utils::array1_to_vec` is not under the staged
sources; it converts an `Array1<f64>` into a `Vec<f64>` with the same
contents, hence the identity on the embedded sequence. -/
def array1_to_vec (v : List ℚ) : List ℚ := v

/-- Interface function between input from wasm as `Vec<f64>` and the crate's
`Array1<f64>` (src/wasm.rs `calculate_model`, lines 37-43): applies the
resolved model function to the parameters and the domain. -/
def calculate_model (K : ModelFn → List ℚ → ℚ → ℚ)
    (p x : List ℚ) (mdl : ModelFn) : List ℚ :=
  array1_to_vec (ModelFn.apply K mdl p x)

/-- Calls model functions by their name for given parameters and a domain
(src/wasm.rs `model`, lines 46-49). -/
def model (K : ModelFn → List ℚ → ℚ → ℚ)
    (function_name : String) (p x : List ℚ) : List ℚ :=
  calculate_model K p x (get_function function_name)

/-- A concrete stand-in kernel, used to instantiate witnesses: every model
function evaluates to the domain point itself. -/
def K0 : ModelFn → List ℚ → ℚ → ℚ := fun _ _ t => t

theorem get_function_not_registered (name : String)
    (h : name ∉ registered_names) : get_function name = ModelFn.zero := by
  simp only [registered_names, List.mem_cons, List.not_mem_nil, or_false,
    not_or] at h
  obtain ⟨h1, h2, h3, h4, h5, h6, h7, h8, h9, h10⟩ := h
  unfold get_function
  split
  · exact absurd rfl h1
  · exact absurd rfl h2
  · exact absurd rfl h3
  · exact absurd rfl h4
  · exact absurd rfl h5
  · exact absurd rfl h6
  · exact absurd rfl h7
  · exact absurd rfl h8
  · exact absurd rfl h9
  · exact absurd rfl h10
  · rfl

theorem apply_zero (K : ModelFn → List ℚ → ℚ → ℚ) (p x : List ℚ) :
    ModelFn.apply K ModelFn.zero p x = List.replicate x.length 0 := by
  show x.map (fun _ => (0 : ℚ)) = List.replicate x.length 0
  induction x with
  | nil => rfl
  | cons a l ih => simp [List.replicate, ih]

/-- C1: every name outside the ten registered ones resolves to the
constant-zero model: `get_function` returns the zero function and `model`
returns a sequence of zeros of the domain's length, for every kernel
interpretation, every parameter vector and every domain. -/
theorem unregistered_name_gives_zero_model (K : ModelFn → List ℚ → ℚ → ℚ)
    (name : String) (h : name ∉ registered_names) (p x : List ℚ) :
    get_function name = ModelFn.zero ∧
      model K name p x = List.replicate x.length 0 := by
  refine ⟨get_function_not_registered name h, ?_⟩
  unfold model calculate_model array1_to_vec
  rw [get_function_not_registered name h, apply_zero]

/-- Witness for C1 at the concrete unregistered name "bogus". -/
theorem unregistered_name_gives_zero_model_witness :
    get_function "bogus" = ModelFn.zero ∧
      model K0 "bogus" [1, 2] [3, 4, 5] =
        List.replicate ([3, 4, 5] : List ℚ).length 0 :=
  unregistered_name_gives_zero_model K0 "bogus" (by decide) [1, 2] [3, 4, 5]

/-- C2: each of the ten registered names resolves to its own specific model
function, never to the zero fallback. -/
theorem registered_names_resolve :
    get_function "linear" = ModelFn.linear ∧
    get_function "parabola" = ModelFn.parabola ∧
    get_function "sqrt" = ModelFn.sqrt ∧
    get_function "cos" = ModelFn.cos ∧
    get_function "sin" = ModelFn.sin ∧
    get_function "tan" = ModelFn.tan ∧
    get_function "exp" = ModelFn.exp ∧
    get_function "gaussian" = ModelFn.gaussian ∧
    get_function "sas_sphere" = ModelFn.sphere_formfactor ∧
    get_function "sas_cube" = ModelFn.cube_formfactor ∧
    ∀ name, name ∈ registered_names → get_function name ≠ ModelFn.zero := by
  decide

/-- C8: `model` is deterministic — two calls with equal function name,
parameter vector and domain produce equal output sequences. -/
theorem model_deterministic (K : ModelFn → List ℚ → ℚ → ℚ)
    (n1 n2 : String) (p1 p2 x1 x2 : List ℚ)
    (hn : n1 = n2) (hp : p1 = p2) (hx : x1 = x2) :
    model K n1 p1 x1 = model K n2 p2 x2 := by
  subst hn; subst hp; subst hx; rfl

/-- Witness for C8 at a concrete registered name and concrete inputs. -/
theorem model_deterministic_witness :
    model K0 "linear" [1, 2] [3] = model K0 "linear" [1, 2] [3] :=
  model_deterministic K0 "linear" "linear" [1, 2] [1, 2] [3] [3] rfl rfl rfl

/-- Modelled from the spec: `func1d::Func1D` is not under the staged sources.
Per the spec (Parametric Model, §4.2) it binds a model function to a
parameter vector and a fixed domain.  Field names follow the construction
call `Func1D::new(&arr_p, &arr_x, get_function(model_name))` in
src/wasm.rs line 122. -/
structure Func1D where
  parameters : List ℚ
  domain : List ℚ
  func : ModelFn
  deriving DecidableEq

/-- The constructor call used by `fit` (src/wasm.rs line 122). -/
def Func1D.new (p x : List ℚ) (f : ModelFn) : Func1D :=
  { parameters := p, domain := x, func := f }

/-- Modelled from the spec: the `InvalidArgument` failure of the error
taxonomy (§7), raised for malformed input before any iteration begins. -/
inductive FitError where
  | invalidArgument
  deriving DecidableEq

/-- Modelled from the spec: `curve_fit::Minimizer` is not under the staged
sources.  Its fields are those src/wasm.rs reads after `minimize()`
(`minimizer_parameters`, `parameter_errors`, `num_func_evaluation`,
`minimizer_ymodel`, `chi2`, `redchi2`, `convergence_message`) together with
the state the spec assigns to the Minimizer (§3 "Minimizer State"): the
parametric model, the observation `y`/`sy`, the vary mask and the damping
factor. -/
structure Minimizer where
  model : Func1D
  y : List ℚ
  sy : List ℚ
  vary_parameter : List Bool
  lambda : ℚ
  minimizer_parameters : List ℚ
  minimizer_ymodel : List ℚ
  num_func_evaluation : ℕ
  chi2 : ℚ
  redchi2 : ℚ
  parameter_errors : List ℚ
  convergence_message : String
  deriving DecidableEq

/-- The weighted sum of squared residuals of the spec (§4.3):
chi2 = sum of ((model_i - y_i) / sy_i)^2. -/
def chi2_of (ymodel y sy : List ℚ) : ℚ :=
  ((ymodel.zip (y.zip sy)).map (fun t => ((t.1 - t.2.1) / t.2.2) ^ 2)).sum

/-- Modelled from the spec: `curve_fit::Minimizer::init` is not under the
staged sources.  Per §7 malformed input — a vary mask whose length differs
from the parameter count, an uncertainty vector whose length differs from
the observation count, a non-positive uncertainty, or an empty domain — is
"surfaced immediately to the caller before any iteration begins" as
`InvalidArgument`; otherwise the state is initialized at the given
parameters with the caller-supplied damping seed, one model evaluation is
performed, and the initial chi2 is recorded. -/
def Minimizer.init (K : ModelFn → List ℚ → ℚ → ℚ) (model : Func1D)
    (y sy : List ℚ) (vary_parameter : List Bool) (lambda : ℚ) :
    Except FitError Minimizer :=
  if vary_parameter.length ≠ model.parameters.length ∨
      sy.length ≠ y.length ∨ sy.any (fun s => decide (s ≤ 0)) ∨
      model.domain.isEmpty then
    Except.error FitError.invalidArgument
  else
    let ym := ModelFn.apply K model.func model.parameters model.domain
    Except.ok
      { model := model
        y := y
        sy := sy
        vary_parameter := vary_parameter
        lambda := lambda
        minimizer_parameters := model.parameters
        minimizer_ymodel := ym
        num_func_evaluation := 1
        chi2 := chi2_of ym y sy
        redchi2 := 0
        parameter_errors := List.replicate model.parameters.length 0
        convergence_message := "" }

/-- Modelled from the spec (§4.3 steps 1 and 5): a proposed step is applied
only to the free parameters — the step entries are consumed at the
vary-masked positions, and "held parameters are treated as constants
substituted into the model". -/
def apply_step : List ℚ → List Bool → List ℚ → List ℚ
  | [], _, _ => []
  | q :: ps, true :: vs, d :: ds => (q + d) :: apply_step ps vs ds
  | q :: ps, true :: vs, [] => q :: apply_step ps vs []
  | q :: ps, false :: vs, ds => q :: apply_step ps vs ds
  | q :: ps, [], ds => q :: apply_step ps [] ds

/-- Modelled from the spec: the iteration budget of §4.3 step 6(b); the
exact bound is not fixed by the spec. -/
def max_iterations : ℕ := 100

/-- Modelled from the spec: the convergence tolerance on the decrease of
chi2 between accepted steps (§4.3 step 6(a)); the exact value is not fixed
by the spec. -/
def convergence_tol : ℚ := 1 / 1000000

/-- Modelled from the spec: one damped Gauss-Newton loop (§4.3 steps 2-6).
The linear solve of step 4 is a black box abstracted as the oracle `S`
(`none` models a failed solve, terminating in the LinearSolveFailed state);
a proposed step is applied to the free parameters only, accepted when chi2
decreases (damping divided by a fixed factor) and rejected otherwise
(damping multiplied by a fixed factor); termination happens on convergence,
on a failed solve, or when the iteration budget is exhausted, each with its
own message. -/
def Minimizer.iterate (K : ModelFn → List ℚ → ℚ → ℚ)
    (S : Minimizer → Option (List ℚ)) : ℕ → Minimizer → Minimizer
  | 0, st => { st with convergence_message :=
      "Reached maximum number of iterations" }
  | fuel + 1, st =>
    match S st with
    | none => { st with convergence_message := "Linear solve failed" }
    | some d =>
      let q := apply_step st.minimizer_parameters st.vary_parameter d
      let ym := ModelFn.apply K st.model.func q st.model.domain
      let c := chi2_of ym st.y st.sy
      if c < st.chi2 then
        if st.chi2 - c < convergence_tol then
          { st with
            minimizer_parameters := q
            minimizer_ymodel := ym
            chi2 := c
            lambda := st.lambda / 10
            num_func_evaluation := st.num_func_evaluation + 1
            convergence_message := "Converged" }
        else
          Minimizer.iterate K S fuel
            { st with
              minimizer_parameters := q
              minimizer_ymodel := ym
              chi2 := c
              lambda := st.lambda / 10
              num_func_evaluation := st.num_func_evaluation + 1 }
      else
        Minimizer.iterate K S fuel
          { st with
            lambda := st.lambda * 10
            num_func_evaluation := st.num_func_evaluation + 1 }

/-- Modelled from the spec (§4.3 steps 7-8): on termination the reduced chi2
is chi2 over the degrees of freedom (a sentinel when they are not positive),
and the parameter standard errors come from the covariance computation,
a black box abstracted as the oracle `E`. -/
def Minimizer.finalize (E : Minimizer → List ℚ) (st : Minimizer) :
    Minimizer :=
  let dof : ℤ := (st.y.length : ℤ) - (st.vary_parameter.count true : ℤ)
  { st with
    redchi2 := if 0 < dof then st.chi2 / (dof : ℚ) else 0
    parameter_errors := E st }

/-- Modelled from the spec: `minimize()` (src/wasm.rs line 124) runs the
iteration loop to a terminal state and derives the final statistics. -/
def Minimizer.minimize (K : ModelFn → List ℚ → ℚ → ℚ)
    (S : Minimizer → Option (List ℚ)) (E : Minimizer → List ℚ)
    (st : Minimizer) : Minimizer :=
  Minimizer.finalize E (Minimizer.iterate K S max_iterations st)

/-- Modelled from the spec (§4.3 step 9): R2 = 1 - SS_res / SS_tot with a
sentinel when SS_tot is zero (`calculate_R2`, called at
src/wasm.rs line 126). -/
def Minimizer.calculate_R2 (st : Minimizer) : ℚ :=
  let n : ℚ := st.y.length
  let ybar := st.y.sum / n
  let ss_tot := (st.y.map (fun v => (v - ybar) ^ 2)).sum
  let ss_res := ((st.y.zip st.minimizer_ymodel).map
    (fun t => (t.1 - t.2) ^ 2)).sum
  if ss_tot = 0 then 0 else 1 - ss_res / ss_tot

/-- The returned fit result from a `fit()` call (src/wasm.rs lines 54-63),
one field per stored component. -/
structure FitResult where
  parameters : List ℚ
  parameter_std_errors : List ℚ
  fitted_model : List ℚ
  num_func_evaluation : ℕ
  chi2 : ℚ
  redchi2 : ℚ
  R2 : ℚ
  convergence_message : String
  deriving DecidableEq

/-- The getter `pub fn parameters` of src/wasm.rs lines 67-69: a clone of
the stored field. -/
def FitResult.parameters' (r : FitResult) : List ℚ := r.parameters

/-- The getter `pub fn parameter_std_errors` of src/wasm.rs lines 71-73. -/
def FitResult.parameter_std_errors' (r : FitResult) : List ℚ :=
  r.parameter_std_errors

/-- The getter `pub fn fitted_model` of src/wasm.rs lines 75-77. -/
def FitResult.fitted_model' (r : FitResult) : List ℚ := r.fitted_model

/-- The getter `pub fn num_func_evaluation` of src/wasm.rs lines 79-81. -/
def FitResult.num_func_evaluation' (r : FitResult) : ℕ :=
  r.num_func_evaluation

/-- The getter `pub fn chi2` of src/wasm.rs lines 83-85. -/
def FitResult.chi2' (r : FitResult) : ℚ := r.chi2

/-- The getter `pub fn redchi2` of src/wasm.rs lines 87-89. -/
def FitResult.redchi2' (r : FitResult) : ℚ := r.redchi2

/-- The getter `pub fn R2` of src/wasm.rs lines 91-93 (the accessor the
spec's interface list writes as `r_squared`). -/
def FitResult.R2' (r : FitResult) : ℚ := r.R2

/-- The getter `pub fn convergence_message` of src/wasm.rs lines 95-97. -/
def FitResult.convergence_message' (r : FitResult) : String :=
  r.convergence_message

/-- The vary-mask conversion loop of `fit` (src/wasm.rs lines 116-119): each
`u8` entry is pushed as the boolean `entry > 0`.  A `u8` entry is embedded
as a natural number; no arithmetic besides this comparison touches it. -/
def to_bool_mask (vary_p : List ℕ) : List Bool :=
  vary_p.map (fun entry => decide (entry > 0))

/-- The initialization performed by `fit` (src/wasm.rs lines 112-123):
the converted vary mask, the `Func1D` bound to the resolved model function,
and `Minimizer::init` with the damping seed written literally as `0.01`. -/
def fit_minimizer (K : ModelFn → List ℚ → ℚ → ℚ) (model_name : String)
    (p x y sy : List ℚ) (vary_p : List ℕ) : Except FitError Minimizer :=
  Minimizer.init K (Func1D.new p x (get_function model_name)) y sy
    (to_bool_mask vary_p) 0.01

/-- Fit using the LM algorithm for the model named `model_name`
(src/wasm.rs `fit`, lines 104-138): initialize the minimizer, run
`minimize()`, compute R2 and package the final state into a `FitResult`.
The `Except` layer carries the spec-modelled `InvalidArgument` rejection of
`Minimizer::init`; every state reaching `minimize` produces an `ok`
result. -/
def fit (K : ModelFn → List ℚ → ℚ → ℚ) (S : Minimizer → Option (List ℚ))
    (E : Minimizer → List ℚ) (model_name : String)
    (p x y sy : List ℚ) (vary_p : List ℕ) : Except FitError FitResult :=
  match fit_minimizer K model_name p x y sy vary_p with
  | Except.error e => Except.error e
  | Except.ok m0 =>
    let m := Minimizer.minimize K S E m0
    Except.ok
      { parameters := array1_to_vec m.minimizer_parameters
        parameter_std_errors := array1_to_vec m.parameter_errors
        fitted_model := array1_to_vec m.minimizer_ymodel
        num_func_evaluation := m.num_func_evaluation
        chi2 := m.chi2
        redchi2 := m.redchi2
        R2 := Minimizer.calculate_R2 m
        convergence_message := m.convergence_message }

/-- A concrete stand-in solve oracle for witnesses: the linear solve always
fails, so the loop terminates immediately in the LinearSolveFailed state. -/
def S0 : Minimizer → Option (List ℚ) := fun _ => none

/-- A concrete stand-in covariance oracle for witnesses. -/
def E0 : Minimizer → List ℚ := fun _ => []

theorem apply_step_length (ps : List ℚ) :
    ∀ (vs : List Bool) (ds : List ℚ),
      (apply_step ps vs ds).length = ps.length := by
  induction ps with
  | nil => intro vs ds; rfl
  | cons q ps ih =>
    intro vs ds
    match vs, ds with
    | [], ds => simp [apply_step, ih]
    | true :: vs, [] => simp [apply_step, ih]
    | true :: vs, d :: ds => simp [apply_step, ih]
    | false :: vs, ds => simp [apply_step, ih]

theorem apply_step_held (ps : List ℚ) :
    ∀ (vs : List Bool) (ds : List ℚ) (i : ℕ), vs.getD i true = false →
      (apply_step ps vs ds).getD i 0 = ps.getD i 0 := by
  induction ps with
  | nil => intro vs ds i _; rfl
  | cons q ps ih =>
    intro vs ds i hv
    match vs, ds with
    | [], ds => simp [List.getD_nil] at hv
    | true :: vs, [] =>
      match i with
      | 0 => simp at hv
      | n + 1 =>
        simp only [apply_step, List.getD_cons_succ]
        exact ih vs [] n (by simpa using hv)
    | true :: vs, d :: ds =>
      match i with
      | 0 => simp at hv
      | n + 1 =>
        simp only [apply_step, List.getD_cons_succ]
        exact ih vs ds n (by simpa using hv)
    | false :: vs, ds =>
      match i with
      | 0 => simp [apply_step]
      | n + 1 =>
        simp only [apply_step, List.getD_cons_succ]
        exact ih vs ds n (by simpa using hv)

theorem iterate_state (K : ModelFn → List ℚ → ℚ → ℚ)
    (S : Minimizer → Option (List ℚ)) :
    ∀ (fuel : ℕ) (st : Minimizer),
      (Minimizer.iterate K S fuel st).vary_parameter = st.vary_parameter ∧
      (Minimizer.iterate K S fuel st).minimizer_parameters.length =
        st.minimizer_parameters.length ∧
      ∀ i : ℕ, st.vary_parameter.getD i true = false →
        (Minimizer.iterate K S fuel st).minimizer_parameters.getD i 0 =
          st.minimizer_parameters.getD i 0 := by
  intro fuel
  induction fuel with
  | zero => intro st; refine ⟨rfl, rfl, fun i _ => rfl⟩
  | succ n ih =>
    intro st
    rw [Minimizer.iterate]
    cases hS : S st with
    | none => exact ⟨rfl, rfl, fun i _ => rfl⟩
    | some d =>
      dsimp only
      split
      · split
        · refine ⟨rfl, apply_step_length _ _ _, fun i hv => ?_⟩
          exact apply_step_held _ _ _ i hv
        · obtain ⟨h1, h2, h3⟩ := ih
            { st with
              minimizer_parameters :=
                apply_step st.minimizer_parameters st.vary_parameter d
              minimizer_ymodel := ModelFn.apply K st.model.func
                (apply_step st.minimizer_parameters st.vary_parameter d)
                st.model.domain
              chi2 := chi2_of (ModelFn.apply K st.model.func
                (apply_step st.minimizer_parameters st.vary_parameter d)
                st.model.domain) st.y st.sy
              lambda := st.lambda / 10
              num_func_evaluation := st.num_func_evaluation + 1 }
          refine ⟨h1, ?_, fun i hv => ?_⟩
          · exact h2.trans (apply_step_length _ _ _)
          · exact (h3 i hv).trans (apply_step_held _ _ _ i hv)
      · obtain ⟨h1, h2, h3⟩ := ih
          { st with
            lambda := st.lambda * 10
            num_func_evaluation := st.num_func_evaluation + 1 }
        exact ⟨h1, h2, h3⟩

theorem finalize_state (E : Minimizer → List ℚ) (st : Minimizer) :
    (Minimizer.finalize E st).minimizer_parameters =
      st.minimizer_parameters := rfl

theorem fit_minimizer_ok_fields (K : ModelFn → List ℚ → ℚ → ℚ)
    (model_name : String) (p x y sy : List ℚ) (vary_p : List ℕ)
    (m : Minimizer)
    (h : fit_minimizer K model_name p x y sy vary_p = Except.ok m) :
    m.lambda = 0.01 ∧ m.minimizer_parameters = p ∧
      m.vary_parameter = to_bool_mask vary_p ∧
      vary_p.length = p.length := by
  unfold fit_minimizer Minimizer.init at h
  split at h
  · exact absurd h (by simp)
  · next hc =>
    push_neg at hc
    obtain ⟨hlen, -, -, -⟩ := hc
    simp only [Except.ok.injEq] at h
    subst h
    refine ⟨rfl, rfl, rfl, ?_⟩
    simpa [to_bool_mask, Func1D.new] using hlen

theorem to_bool_mask_getD (vp : List ℕ) (i : ℕ) :
    (to_bool_mask vp).getD i false = decide (vp.getD i 0 > 0) := by
  induction vp generalizing i with
  | nil => simp [to_bool_mask]
  | cons a l ih =>
    match i with
    | 0 => simp [to_bool_mask]
    | n + 1 => simpa [to_bool_mask] using ih n

theorem to_bool_mask_getD_true (vp : List ℕ) (i : ℕ) (hi : i < vp.length) :
    (to_bool_mask vp).getD i true = decide (vp.getD i 0 > 0) := by
  induction vp generalizing i with
  | nil => simp at hi
  | cons a l ih =>
    match i with
    | 0 => simp [to_bool_mask]
    | n + 1 =>
      simpa [to_bool_mask] using ih n (by simpa using hi)

/-- C4: the `FitResult` accessors `parameters`, `parameter_std_errors`,
`fitted_model`, `num_func_evaluation`, `chi2`, `redchi2`, `R2` (the spec's
`r_squared`) and `convergence_message` each return the corresponding stored
field. -/
theorem accessors_return_fields (r : FitResult) :
    r.parameters' = r.parameters ∧
    r.parameter_std_errors' = r.parameter_std_errors ∧
    r.fitted_model' = r.fitted_model ∧
    r.num_func_evaluation' = r.num_func_evaluation ∧
    r.chi2' = r.chi2 ∧
    r.redchi2' = r.redchi2 ∧
    r.R2' = r.R2 ∧
    r.convergence_message' = r.convergence_message :=
  ⟨rfl, rfl, rfl, rfl, rfl, rfl, rfl, rfl⟩

/-- C5: `fit` initializes the minimizer with the damping-factor seed
written literally as `0.01` (src/wasm.rs line 123), for every invocation
that constructs a minimizer. -/
theorem fit_damping_seed (K : ModelFn → List ℚ → ℚ → ℚ)
    (model_name : String) (p x y sy : List ℚ) (vary_p : List ℕ)
    (m : Minimizer)
    (h : fit_minimizer K model_name p x y sy vary_p = Except.ok m) :
    m.lambda = 0.01 :=
  (fit_minimizer_ok_fields K model_name p x y sy vary_p m h).1

/-- The minimizer state `fit` builds from model "linear", p = [1], x = [2],
y = [3], sy = [1], vary mask [1] under the stand-in kernel `K0`. -/
def demo_minimizer : Minimizer :=
  { model := Func1D.new [1] [2] ModelFn.linear
    y := [3]
    sy := [1]
    vary_parameter := [true]
    lambda := 0.01
    minimizer_parameters := [1]
    minimizer_ymodel := ModelFn.apply K0 ModelFn.linear [1] [2]
    num_func_evaluation := 1
    chi2 := chi2_of (ModelFn.apply K0 ModelFn.linear [1] [2]) [3] [1]
    redchi2 := 0
    parameter_errors := [0]
    convergence_message := "" }

/-- Witness for C5 at a concrete valid invocation. -/
theorem fit_damping_seed_witness : demo_minimizer.lambda = 0.01 :=
  fit_damping_seed K0 "linear" [1] [2] [3] [1] [1] demo_minimizer rfl

/-- C6: a vary mask whose length differs from the parameter vector's is
rejected with `InvalidArgument` before any iteration runs: the minimizer is
never constructed and `fit` surfaces the failure. -/
theorem mismatched_vary_mask_rejected (K : ModelFn → List ℚ → ℚ → ℚ)
    (S : Minimizer → Option (List ℚ)) (E : Minimizer → List ℚ)
    (model_name : String) (p x y sy : List ℚ) (vary_p : List ℕ)
    (h : vary_p.length ≠ p.length) :
    fit_minimizer K model_name p x y sy vary_p =
      Except.error FitError.invalidArgument ∧
    fit K S E model_name p x y sy vary_p =
      Except.error FitError.invalidArgument := by
  have hm : fit_minimizer K model_name p x y sy vary_p =
      Except.error FitError.invalidArgument := by
    unfold fit_minimizer Minimizer.init
    rw [if_pos]
    exact Or.inl (by simpa [to_bool_mask, Func1D.new] using h)
  refine ⟨hm, ?_⟩
  unfold fit
  rw [hm]

/-- Witness for C6 at a concrete mismatched mask (length 2 against one
parameter). -/
theorem mismatched_vary_mask_rejected_witness :
    fit_minimizer K0 "parabola" [1] [2] [3] [1] [1, 0] =
      Except.error FitError.invalidArgument ∧
    fit K0 S0 E0 "parabola" [1] [2] [3] [1] [1, 0] =
      Except.error FitError.invalidArgument :=
  mismatched_vary_mask_rejected K0 S0 E0 "parabola" [1] [2] [3] [1] [1, 0]
    (by decide)

/-- Counterexample to C3 as stated: at a vary mask of the wrong length,
`fit` does not return a `FitResult` — the spec-modelled `InvalidArgument`
rejection of §7 reaches the caller, so the error branch is reachable. -/
theorem fit_not_total_counterexample :
    (fit K0 S0 E0 "linear" [0] [1] [1] [1] [1, 1]).isOk = false := rfl

/-- C3 (amended): for every input that passes the §7 validation — vary mask
as long as the parameter vector, uncertainties as long as the observations
and positive, nonempty domain — `fit` returns a `FitResult`, whatever the
black-box numerics do: the solve oracle `S` may even fail at every step,
so numerical difficulties during iteration are never propagated to the
caller as an error. -/
theorem fit_returns_result_on_valid_input (K : ModelFn → List ℚ → ℚ → ℚ)
    (S : Minimizer → Option (List ℚ)) (E : Minimizer → List ℚ)
    (model_name : String) (p x y sy : List ℚ) (vary_p : List ℕ)
    (hv : vary_p.length = p.length) (hsy : sy.length = y.length)
    (hpos : ∀ s ∈ sy, 0 < s) (hx : x ≠ []) :
    (fit K S E model_name p x y sy vary_p).isOk = true := by
  have hm : ∃ m, fit_minimizer K model_name p x y sy vary_p =
      Except.ok m := by
    unfold fit_minimizer Minimizer.init
    rw [if_neg]
    · exact ⟨_, rfl⟩
    · push_neg
      refine ⟨by simpa [to_bool_mask, Func1D.new] using hv, hsy, ?_, ?_⟩
      · simp only [ne_eq, List.any_eq_true, decide_eq_true_eq]
        push_neg
        exact hpos
      · simpa [Func1D.new, List.isEmpty_iff] using hx
  obtain ⟨m, hm⟩ := hm
  unfold fit
  rw [hm]
  rfl

/-- Witness for C3's amended statement at a concrete valid input. -/
theorem fit_returns_result_on_valid_input_witness :
    (fit K0 S0 E0 "linear" [1] [2] [3] [1] [1]).isOk = true :=
  fit_returns_result_on_valid_input K0 S0 E0 "linear" [1] [2] [3] [1] [1]
    rfl rfl (by decide) (by decide)

/-- C9: the integer vary mask is converted elementwise by `entry > 0`
(src/wasm.rs lines 116-119): the minimizer receives exactly the converted
mask, the conversion preserves length and order, and any non-zero entry —
not only 1 — marks the parameter free while a zero entry marks it held. -/
theorem vary_mask_conversion (K : ModelFn → List ℚ → ℚ → ℚ)
    (model_name : String) (p x y sy : List ℚ) (vary_p : List ℕ)
    (m : Minimizer)
    (h : fit_minimizer K model_name p x y sy vary_p = Except.ok m)
    (i : ℕ) :
    m.vary_parameter = to_bool_mask vary_p ∧
    (to_bool_mask vary_p).length = vary_p.length ∧
    (to_bool_mask vary_p).getD i false = decide (vary_p.getD i 0 > 0) ∧
    ((to_bool_mask vary_p).getD i false = true ↔ vary_p.getD i 0 ≠ 0) := by
  refine ⟨(fit_minimizer_ok_fields K model_name p x y sy vary_p m h).2.2.1,
    by simp [to_bool_mask], to_bool_mask_getD vary_p i, ?_⟩
  rw [to_bool_mask_getD]
  simp [Nat.pos_iff_ne_zero]

/-- The minimizer state `fit` builds from p = [1, 2] and the vary mask
[2, 0]: entry 2 is non-zero, so the first parameter is free. -/
def demo_mask_minimizer : Minimizer :=
  { model := Func1D.new [1, 2] [2] ModelFn.linear
    y := [3]
    sy := [1]
    vary_parameter := [true, false]
    lambda := 0.01
    minimizer_parameters := [1, 2]
    minimizer_ymodel := ModelFn.apply K0 ModelFn.linear [1, 2] [2]
    num_func_evaluation := 1
    chi2 := chi2_of (ModelFn.apply K0 ModelFn.linear [1, 2] [2]) [3] [1]
    redchi2 := 0
    parameter_errors := [0, 0]
    convergence_message := "" }

/-- Witness for C9 at the concrete mask [2, 0] and index 0: the non-one
entry 2 is converted to `true`. -/
theorem vary_mask_conversion_witness :
    demo_mask_minimizer.vary_parameter = to_bool_mask [2, 0] ∧
    (to_bool_mask [2, 0]).length = ([2, 0] : List ℕ).length ∧
    (to_bool_mask [2, 0]).getD 0 false =
      decide (([2, 0] : List ℕ).getD 0 0 > 0) ∧
    ((to_bool_mask [2, 0]).getD 0 false = true ↔
      ([2, 0] : List ℕ).getD 0 0 ≠ 0) :=
  vary_mask_conversion K0 "linear" [1, 2] [2] [3] [1] [2, 0]
    demo_mask_minimizer rfl 0

/-- C7: a parameter whose vary-mask entry is 0 keeps exactly its initial
value in the returned `FitResult`'s `parameters` field, for every choice of
data, domain and black-box numerics; the returned parameter vector also
keeps the initial vector's length. -/
theorem held_parameters_fixed (K : ModelFn → List ℚ → ℚ → ℚ)
    (S : Minimizer → Option (List ℚ)) (E : Minimizer → List ℚ)
    (model_name : String) (p x y sy : List ℚ) (vary_p : List ℕ)
    (r : FitResult)
    (h : fit K S E model_name p x y sy vary_p = Except.ok r)
    (i : ℕ) (hi : i < vary_p.length) (hz : vary_p.getD i 0 = 0) :
    r.parameters.length = p.length ∧
      r.parameters.getD i 0 = p.getD i 0 := by
  unfold fit at h
  cases hm : fit_minimizer K model_name p x y sy vary_p with
  | error e =>
    rw [hm] at h
    exact Except.noConfusion h
  | ok m0 =>
    rw [hm] at h
    injection h with h
    subst h
    obtain ⟨-, hp0, hvary, -⟩ :=
      fit_minimizer_ok_fields K model_name p x y sy vary_p m0 hm
    obtain ⟨-, h2, h3⟩ := iterate_state K S max_iterations m0
    have hv' : m0.vary_parameter.getD i true = false := by
      rw [hvary, to_bool_mask_getD_true vary_p i hi, hz]
      rfl
    constructor
    · show (array1_to_vec
        (Minimizer.minimize K S E m0).minimizer_parameters).length = p.length
      rw [show array1_to_vec (Minimizer.minimize K S E
        m0).minimizer_parameters = (Minimizer.iterate K S max_iterations
          m0).minimizer_parameters from rfl]
      rw [h2, hp0]
    · show (array1_to_vec
        (Minimizer.minimize K S E m0).minimizer_parameters).getD i 0 =
          p.getD i 0
      rw [show array1_to_vec (Minimizer.minimize K S E
        m0).minimizer_parameters = (Minimizer.iterate K S max_iterations
          m0).minimizer_parameters from rfl]
      rw [h3 i hv', hp0]

/-- The minimizer state `fit` builds from p = [5, 7] and the vary mask
[1, 0]: the second parameter is held. -/
def demo_held_m0 : Minimizer :=
  { model := Func1D.new [5, 7] [2] ModelFn.linear
    y := [3]
    sy := [1]
    vary_parameter := [true, false]
    lambda := 0.01
    minimizer_parameters := [5, 7]
    minimizer_ymodel := ModelFn.apply K0 ModelFn.linear [5, 7] [2]
    num_func_evaluation := 1
    chi2 := chi2_of (ModelFn.apply K0 ModelFn.linear [5, 7] [2]) [3] [1]
    redchi2 := 0
    parameter_errors := [0, 0]
    convergence_message := "" }

/-- The fit result of the run started from `demo_held_m0` under the
stand-in oracles. -/
def demo_held_result : FitResult :=
  { parameters := [5, 7]
    parameter_std_errors := []
    fitted_model := ModelFn.apply K0 ModelFn.linear [5, 7] [2]
    num_func_evaluation := 1
    chi2 := chi2_of (ModelFn.apply K0 ModelFn.linear [5, 7] [2]) [3] [1]
    redchi2 := 0
    R2 := Minimizer.calculate_R2 (Minimizer.minimize K0 S0 E0 demo_held_m0)
    convergence_message := "Linear solve failed" }

/-- Witness for C7: fitting with initial parameters [5, 7] and vary mask
[1, 0] returns the held second parameter unchanged. -/
theorem held_parameters_fixed_witness :
    demo_held_result.parameters.length = ([5, 7] : List ℚ).length ∧
      demo_held_result.parameters.getD 1 0 = ([5, 7] : List ℚ).getD 1 0 :=
  held_parameters_fixed K0 S0 E0 "linear" [5, 7] [2] [3] [1] [1, 0]
    demo_held_result rfl 1 (by decide) rfl

/-- C10: the `FitResult` accessors are pure reads of an immutable snapshot:
the value each accessor returns is exactly the corresponding component of
the minimizer state captured when the result was constructed, and since the
accessors are functions of the result value alone, repeated calls return
equal values and mutate nothing. -/
theorem fit_result_snapshot (K : ModelFn → List ℚ → ℚ → ℚ)
    (S : Minimizer → Option (List ℚ)) (E : Minimizer → List ℚ)
    (model_name : String) (p x y sy : List ℚ) (vary_p : List ℕ)
    (m : Minimizer) (r : FitResult)
    (hm : fit_minimizer K model_name p x y sy vary_p = Except.ok m)
    (hr : fit K S E model_name p x y sy vary_p = Except.ok r) :
    (r.parameters', r.parameter_std_errors', r.fitted_model',
        r.num_func_evaluation', r.chi2', r.redchi2', r.R2',
        r.convergence_message') =
      ((Minimizer.minimize K S E m).minimizer_parameters,
        (Minimizer.minimize K S E m).parameter_errors,
        (Minimizer.minimize K S E m).minimizer_ymodel,
        (Minimizer.minimize K S E m).num_func_evaluation,
        (Minimizer.minimize K S E m).chi2,
        (Minimizer.minimize K S E m).redchi2,
        Minimizer.calculate_R2 (Minimizer.minimize K S E m),
        (Minimizer.minimize K S E m).convergence_message) ∧
    (r.parameters', r.parameter_std_errors', r.fitted_model',
        r.num_func_evaluation', r.chi2', r.redchi2', r.R2',
        r.convergence_message') =
      (r.parameters', r.parameter_std_errors', r.fitted_model',
        r.num_func_evaluation', r.chi2', r.redchi2', r.R2',
        r.convergence_message') := by
  unfold fit at hr
  rw [hm] at hr
  injection hr with hr
  subst hr
  exact ⟨rfl, rfl⟩

/-- The minimizer state `fit` builds from model "cos", p = [1], x = [4],
y = [5], sy = [1], vary mask [1] under the stand-in kernel `K0`. -/
def demo_snapshot_m0 : Minimizer :=
  { model := Func1D.new [1] [4] ModelFn.cos
    y := [5]
    sy := [1]
    vary_parameter := [true]
    lambda := 0.01
    minimizer_parameters := [1]
    minimizer_ymodel := ModelFn.apply K0 ModelFn.cos [1] [4]
    num_func_evaluation := 1
    chi2 := chi2_of (ModelFn.apply K0 ModelFn.cos [1] [4]) [5] [1]
    redchi2 := 0
    parameter_errors := [0]
    convergence_message := "" }

/-- The fit result of the run started from `demo_snapshot_m0` under the
stand-in oracles. -/
def demo_snapshot_result : FitResult :=
  { parameters := [1]
    parameter_std_errors := []
    fitted_model := ModelFn.apply K0 ModelFn.cos [1] [4]
    num_func_evaluation := 1
    chi2 := chi2_of (ModelFn.apply K0 ModelFn.cos [1] [4]) [5] [1]
    redchi2 := 0
    R2 := Minimizer.calculate_R2
      (Minimizer.minimize K0 S0 E0 demo_snapshot_m0)
    convergence_message := "Linear solve failed" }

/-- Witness for C10 at a concrete fit of the "cos" model. -/
theorem fit_result_snapshot_witness :
    (demo_snapshot_result.parameters',
        demo_snapshot_result.parameter_std_errors',
        demo_snapshot_result.fitted_model',
        demo_snapshot_result.num_func_evaluation',
        demo_snapshot_result.chi2', demo_snapshot_result.redchi2',
        demo_snapshot_result.R2',
        demo_snapshot_result.convergence_message') =
      ((Minimizer.minimize K0 S0 E0 demo_snapshot_m0).minimizer_parameters,
        (Minimizer.minimize K0 S0 E0 demo_snapshot_m0).parameter_errors,
        (Minimizer.minimize K0 S0 E0 demo_snapshot_m0).minimizer_ymodel,
        (Minimizer.minimize K0 S0 E0 demo_snapshot_m0).num_func_evaluation,
        (Minimizer.minimize K0 S0 E0 demo_snapshot_m0).chi2,
        (Minimizer.minimize K0 S0 E0 demo_snapshot_m0).redchi2,
        Minimizer.calculate_R2
          (Minimizer.minimize K0 S0 E0 demo_snapshot_m0),
        (Minimizer.minimize K0 S0 E0 demo_snapshot_m0).convergence_message) ∧
    (demo_snapshot_result.parameters',
        demo_snapshot_result.parameter_std_errors',
        demo_snapshot_result.fitted_model',
        demo_snapshot_result.num_func_evaluation',
        demo_snapshot_result.chi2', demo_snapshot_result.redchi2',
        demo_snapshot_result.R2',
        demo_snapshot_result.convergence_message') =
      (demo_snapshot_result.parameters',
        demo_snapshot_result.parameter_std_errors',
        demo_snapshot_result.fitted_model',
        demo_snapshot_result.num_func_evaluation',
        demo_snapshot_result.chi2', demo_snapshot_result.redchi2',
        demo_snapshot_result.R2',
        demo_snapshot_result.convergence_message') :=
  fit_result_snapshot K0 S0 E0 "cos" [1] [4] [5] [1] [1]
    demo_snapshot_m0 demo_snapshot_result rfl rfl

end Rusfun
